import Mathlib

/-!
Verification of the Account REST microservice (route handlers in
`service/routes.py`, entity contract from the specification §3–§4).

The Account entity (`service/models.py`) is external to the provided
sources, so its operations (`serialize`, `deserialize`, `create`, `find`,
`all`, `update`, `delete`) are modelled from the specification's entity
contract.  The HTTP handlers are translated directly from
`service/routes.py`.
-/

/-- A JSON mapping for an account payload: each optional field is a JSON
key that may be absent.  `phone_number` conflates "absent" and "null",
which is faithful to the `string|null` wire shape of §6. -/
structure Payload where
  id : Option Nat
  name : Option String
  email : Option String
  address : Option String
  phone_number : Option String
  date_joined : Option String
deriving DecidableEq, Repr

/-- Modelled from the spec: the Account entity of `service/models.py`
(not among the provided sources).  §3: `id` is a database-generated
surrogate key (absent before creation); `name`, `email`, `address` are
required strings; `phone_number` is optional; `date_joined` is a date,
rendered as an ISO date string (§3 invariant 3), modelled here as the
string itself. -/
structure Account where
  id : Option Nat
  name : String
  email : String
  address : String
  phone_number : Option String
  date_joined : String
deriving DecidableEq, Repr

/-- Modelled from the spec: a freshly constructed `Account()` before
`deserialize` populates it — no `id` assigned, empty fields. -/
def Account.new : Account :=
  { id := none, name := "", email := "", address := "",
    phone_number := none, date_joined := "" }

/-- Modelled from the spec: `DataValidationError` raised by
`Account.deserialize` (§4.1), carrying a human-readable message. -/
structure DataValidationError where
  msg : String
deriving DecidableEq, Repr

/-- Modelled from the spec: `Account.serialize` (§4.1) — "produces a
mapping of all fields to JSON-compatible values; always succeeds for a
fully-populated instance", every stored field mapping to exactly one
JSON key (§3 invariant 3). -/
def Account.serialize (a : Account) : Payload :=
  { id := a.id, name := some a.name, email := some a.email,
    address := some a.address, phone_number := a.phone_number,
    date_joined := some a.date_joined }

/-- Modelled from the spec: `Account.deserialize` (§4.1) — "populates
fields from a mapping of string keys to values. Fails with a
`ValidationError` when a required key (`name`, `email`, `address`) is
absent ... Does not touch `id`."  §3: `date_joined` "defaults to
creation date if not supplied"; the current date is passed as `today`. -/
def Account.deserialize (a : Account) (p : Payload) (today : String) :
    Except DataValidationError Account :=
  match p.name with
  | none => .error ⟨"Invalid Account: missing name"⟩
  | some n =>
    match p.email with
    | none => .error ⟨"Invalid Account: missing email"⟩
    | some e =>
      match p.address with
      | none => .error ⟨"Invalid Account: missing address"⟩
      | some ad =>
        .ok { a with
              name := n, email := e, address := ad,
              phone_number := p.phone_number,
              date_joined := p.date_joined.getD today }

/-- Modelled from the spec: the relational storage layer (§3 ownership,
§4.1).  Rows in insertion order, plus the next database-generated key. -/
structure DB where
  rows : List Account
  nextId : Nat
deriving DecidableEq, Repr

/-- Modelled from the spec: `Account.create` (§4.1) — "inserts a new row
for this instance into the storage layer; assigns the generated `id`
back onto the instance". -/
def DB.create (db : DB) (a : Account) : Account × DB :=
  let a' := { a with id := some db.nextId }
  (a', { rows := db.rows ++ [a'], nextId := db.nextId + 1 })

/-- Modelled from the spec: `Account.find` (§4.1) — "looks up a single
row by primary key; returns an absent/empty result (not an error) when
no row matches". -/
def DB.find (db : DB) (i : Nat) : Option Account :=
  db.rows.find? (fun r => r.id == some i)

/-- Modelled from the spec: `Account.all` (§4.1) — "returns every row". -/
def DB.all (db : DB) : List Account :=
  db.rows

/-- Modelled from the spec: `Account.update` (§4.1) — "persists the
current in-memory field values to the existing row identified by `id`". -/
def DB.update (db : DB) (a : Account) : DB :=
  { db with rows := db.rows.map (fun r => if r.id == a.id then a else r) }

/-- Modelled from the spec: `Account.delete` (§4.1) — "removes the row
identified by `id` from storage. No-op if the row is already absent". -/
def DB.delete (db : DB) (a : Account) : DB :=
  { db with rows := db.rows.filter (fun r => !(r.id == a.id)) }

/-- Storage well-formedness: every row's key was generated by the
storage layer, hence assigned and strictly below the next key. -/
def DB.wf (db : DB) : Bool :=
  db.rows.all (fun r =>
    match r.id with
    | some j => decide (j < db.nextId)
    | none => false)

/-- An HTTP request as the handlers see it: the declared `Content-Type`
header (absent when not sent) and the JSON body (`none` when the body
does not parse as a JSON mapping). -/
structure Request where
  content_type : Option String
  body : Option Payload
deriving DecidableEq, Repr

/-- A response body: a serialized account, an array of serialized
accounts, an empty body, or an error message. -/
inductive Body where
  | account : Payload → Body
  | accounts : List Payload → Body
  | empty : Body
  | message : String → Body
deriving DecidableEq, Repr

/-- An HTTP response: status code, body, and the optional `Location`
header. -/
structure Response where
  status : Nat
  body : Body
  location : Option String
deriving DecidableEq, Repr

/-- `check_content_type` from `service/routes.py`: reads the request's
`Content-Type` header; when the header is present (Python truthiness:
non-empty) and equal to the expected media type, returns normally
(`none`); otherwise aborts with 415 and a descriptive message (`some`
response). -/
def check_content_type (content_type : Option String) (media_type : String) :
    Option Response :=
  match content_type with
  | some ct =>
    if ct ≠ "" ∧ ct = media_type then
      none
    else
      some ⟨415, .message ("Content-Type must be " ++ media_type), none⟩
  | none => some ⟨415, .message ("Content-Type must be " ++ media_type), none⟩

/-- `create_accounts` from `service/routes.py`: checks the content type,
deserializes the posted body into a fresh account, creates it, and
responds 201 with the serialized account and a `Location` header fixed
to "/".  A missing/unparsable body is a 400 (framework `get_json`
failure), and a `DataValidationError` from `deserialize` is mapped to a
400 by the service's error handlers (spec §4.2 table). -/
def create_accounts (db : DB) (req : Request) (today : String) :
    Response × DB :=
  match check_content_type req.content_type "application/json" with
  | some resp => (resp, db)
  | none =>
    match req.body with
    | none => (⟨400, .message "bad request", none⟩, db)
    | some p =>
      match Account.new.deserialize p today with
      | .error err => (⟨400, .message err.msg, none⟩, db)
      | .ok account =>
        let created := db.create account
        (⟨201, .account created.1.serialize, some "/"⟩, created.2)

/-- `list_accounts` from `service/routes.py`: serializes every account
returned by `Account.all()` and responds 200. -/
def list_accounts (db : DB) : Response :=
  ⟨200, .accounts (db.all.map Account.serialize), none⟩

/-- `read_account` from `service/routes.py`: finds the account by id;
aborts 404 when absent, else responds 200 with the serialized account. -/
def read_account (db : DB) (i : Nat) : Response :=
  match db.find i with
  | none => ⟨404, .message "Not Found", none⟩
  | some acc => ⟨200, .account acc.serialize, none⟩

/-- `update_account` from `service/routes.py`: finds the account by id
(404 with empty body when absent), deserializes the request body onto
the found account, updates storage, then responds 200 with the
serialization of a fresh `find` of the same id.  If that second `find`
misses, the source would fault calling `.serialize()` on `None`; that
branch is a 500. -/
def update_account (db : DB) (i : Nat) (req : Request) (today : String) :
    Response × DB :=
  match db.find i with
  | none => (⟨404, .empty, none⟩, db)
  | some found =>
    match req.body with
    | none => (⟨400, .message "bad request", none⟩, db)
    | some p =>
      match found.deserialize p today with
      | .error err => (⟨400, .message err.msg, none⟩, db)
      | .ok acc =>
        let db' := db.update acc
        match db'.find i with
        | some b => (⟨200, .account b.serialize, none⟩, db')
        | none => (⟨500, .empty, none⟩, db')

/-- `delete_account` from `service/routes.py`: finds the account by id,
deletes it when present, and responds 204 with an empty body either
way. -/
def delete_account (db : DB) (i : Nat) : Response × DB :=
  match db.find i with
  | none => (⟨204, .empty, none⟩, db)
  | some acc => (⟨204, .empty, none⟩, db.delete acc)

/-! ## Helper lemmas -/

/-- A matching row found by id carries that id. -/
theorem id_of_find (db : DB) (i : Nat) (acc : Account)
    (h : db.find i = some acc) : acc.id = some i := by
  unfold DB.find at h
  have hp := List.find?_some h
  simpa using hp

/-- After deleting the row found for an id, no row with that id remains. -/
theorem find_after_delete (db : DB) (i : Nat) (acc : Account)
    (h : db.find i = some acc) : (db.delete acc).find i = none := by
  have hid : acc.id = some i := id_of_find db i acc h
  unfold DB.delete DB.find
  rw [List.find?_eq_none]
  intro r hr
  have hmem := List.mem_filter.mp hr
  have hne : (r.id == acc.id) = false := by
    cases hcase : (r.id == acc.id) with
    | false => rfl
    | true => simp [hcase] at hmem
  rw [hid] at hne
  simp [hne]

/-- A well-formed store has no row carrying the next generated key. -/
theorem find_next_none (db : DB) (hwf : db.wf = true) :
    db.rows.find? (fun r => r.id == some db.nextId) = none := by
  rw [List.find?_eq_none]
  intro r hr
  have hall := List.all_eq_true.mp hwf r hr
  cases hid : r.id with
  | none => rw [hid] at hall; simp at hall
  | some j =>
    rw [hid] at hall
    have hlt : j < db.nextId := by simpa using hall
    have hne : j ≠ db.nextId := Nat.ne_of_lt hlt
    simp [hne]

/-- Replacing the rows matching an id leaves the first match at an id as
the replacement, when a match exists and the replacement keeps its id. -/
theorem find?_map_update (l : List Account) (i : Nat) (a found : Account)
    (hf : l.find? (fun r => r.id == some i) = some found) (hid : a.id = found.id) :
    (l.map (fun r => if r.id == a.id then a else r)).find?
      (fun r => r.id == some i) = some a := by
  have hfid : found.id = some i := by
    have hp := List.find?_some hf
    simpa using hp
  induction l with
  | nil => simp [List.find?] at hf
  | cons x xs ih =>
    by_cases hx : (x.id == some i) = true
    · have hxf : x = found := by
        simp [List.find?, hx] at hf
        exact hf
      subst hxf
      have hxa : (x.id == a.id) = true := by rw [hid]; simp
      simp only [List.map_cons, if_pos hxa]
      have hpa : (a.id == some i) = true := by rw [hid, hfid]; simp
      simp [List.find?, hpa]
    · rw [Bool.not_eq_true] at hx
      simp only [List.find?, hx] at hf
      have hxa : (x.id == a.id) = false := by rw [hid, hfid]; exact hx
      simp only [List.map_cons, hxa, Bool.false_eq_true, if_false]
      simp only [List.find?, hx]
      exact ih hf

/-- A well-formed store is searched in vain for the next generated key,
so a freshly created row is found by a lookup of its assigned id. -/
theorem find_created (db : DB) (a : Account) (hwf : db.wf = true) :
    (db.create a).2.find db.nextId = some (db.create a).1 := by
  unfold DB.create DB.find
  simp only
  rw [List.find?_append, find_next_none db hwf]
  simp [List.find?]

/-- Whenever `check_content_type` aborts, it aborts with status 415. -/
theorem check_content_type_some_status (ct? : Option String) (mt : String)
    (r : Response) (h : check_content_type ct? mt = some r) : r.status = 415 := by
  unfold check_content_type at h
  split at h
  · split at h
    · simp at h
    · injection h with h
      rw [← h]
  · injection h with h
    rw [← h]

/-! ## Claim theorems -/

/-- C2: DELETE /accounts/<id> is idempotent: for every id, deleting it
returns 204 with an empty body whether or not a row with that id exists
(deleting the same id twice yields 204 both times), and a subsequent GET
on that id returns 404. -/
theorem delete_idempotent_204_then_get_404 (db : DB) (i : Nat) :
    (delete_account db i).1 = ⟨204, .empty, none⟩ ∧
    (delete_account (delete_account db i).2 i).1 = ⟨204, .empty, none⟩ ∧
    (delete_account (delete_account db i).2 i).2 = (delete_account db i).2 ∧
    (read_account (delete_account db i).2 i).status = 404 := by
  cases hfind : db.find i with
  | none =>
    simp [delete_account, read_account, hfind]
  | some acc =>
    have hdel := find_after_delete db i acc hfind
    simp [delete_account, read_account, hfind, hdel]

/-- C3: for every id with no matching row, PUT /accounts/<id> returns
404 and leaves the store unchanged: no row is created and no existing
row is modified. -/
theorem put_unknown_id_404_store_unchanged (db : DB) (i : Nat)
    (req : Request) (today : String) (h : db.find i = none) :
    update_account db i req today = (⟨404, .empty, none⟩, db) := by
  simp [update_account, h]

/-- Witness for C3 at the empty store and id 0. -/
theorem put_unknown_id_404_store_unchanged_witness :
    update_account ⟨[], 0⟩ 0 ⟨some "application/json", none⟩ "2020-01-01" =
      (⟨404, .empty, none⟩, ⟨[], 0⟩) :=
  put_unknown_id_404_store_unchanged ⟨[], 0⟩ 0
    ⟨some "application/json", none⟩ "2020-01-01" (by decide)

/-- C5: GET /accounts always returns 200 with a JSON array containing
the serialization of every stored account, one element per row; the body
is the empty array exactly when the store holds no rows. -/
theorem list_accounts_all_rows (db : DB) :
    (list_accounts db).status = 200 ∧
    (list_accounts db).body = .accounts (db.all.map Account.serialize) ∧
    ((list_accounts db).body = .accounts [] ↔ db.rows = []) := by
  refine ⟨rfl, rfl, ?_⟩
  simp [list_accounts, DB.all, List.map_eq_nil_iff]

/-- C8: round-trip law — deserializing the serialization of a
fully-populated account onto any receiving instance restores every field
of the original except `id`, which `deserialize` does not touch (the
receiver's `id` is kept). -/
theorem deserialize_serialize_roundtrip (a b : Account) (today : String) :
    b.deserialize a.serialize today = .ok { a with id := b.id } := by
  simp [Account.serialize, Account.deserialize]

/-- C10: the content-type check accepts only a header exactly equal to
application/json; a missing header or any non-identical value (including
a parameterized one) is rejected with 415. -/
theorem content_type_exact_match_only (h : Option String) :
    (check_content_type h "application/json" = none ↔
      h = some "application/json") ∧
    (h ≠ some "application/json" →
      check_content_type h "application/json" =
        some ⟨415, .message "Content-Type must be application/json", none⟩) := by
  constructor
  · cases h with
    | none => simp [check_content_type]
    | some ct =>
      simp only [check_content_type, Option.some.injEq]
      by_cases hc : ct = "application/json"
      · subst hc
        simp
      · rw [if_neg (fun hand : ct ≠ "" ∧ ct = "application/json" => hc hand.2)]
        simp [hc]
  · intro hne
    cases h with
    | none => rfl
    | some ct =>
      have hc : ct ≠ "application/json" := fun hEq => hne (by rw [hEq])
      simp only [check_content_type]
      rw [if_neg (fun hand : ct ≠ "" ∧ ct = "application/json" => hc hand.2)]
      rfl

/-- Witness for C10 at a parameterized media type. -/
theorem content_type_exact_match_only_witness :
    check_content_type (some "application/json; charset=utf-8")
        "application/json" =
      some ⟨415, .message "Content-Type must be application/json", none⟩ :=
  (content_type_exact_match_only (some "application/json; charset=utf-8")).2
    (by decide)

/-- C9: every successful POST /accounts response carries the constant
Location header "/", independent of the created account's id. -/
theorem create_location_always_root (db : DB) (req : Request)
    (today : String) (h : (create_accounts db req today).1.status = 201) :
    (create_accounts db req today).1.location = some "/" := by
  unfold create_accounts at h ⊢
  cases hc : check_content_type req.content_type "application/json" with
  | some r =>
    simp only [hc] at h
    have h415 := check_content_type_some_status _ _ _ hc
    rw [h415] at h
    simp at h
  | none =>
    simp only [hc] at h ⊢
    cases hb : req.body with
    | none => simp only [hb] at h; simp at h
    | some p =>
      simp only [hb] at h ⊢
      cases hd : Account.new.deserialize p today with
      | error err => simp only [hd] at h; simp at h
      | ok acc => simp only [hd]

/-- Witness for C9 at a concrete successful create. -/
theorem create_location_always_root_witness :
    (create_accounts ⟨[], 0⟩
        ⟨some "application/json",
          some ⟨none, some "John", some "john@example.com",
            some "1 Main St", none, some "2020-01-01"⟩⟩
        "2020-01-02").1.location = some "/" :=
  create_location_always_root ⟨[], 0⟩
    ⟨some "application/json",
      some ⟨none, some "John", some "john@example.com",
        some "1 Main St", none, some "2020-01-01"⟩⟩
    "2020-01-02" (by decide)

/-- C6: POST /accounts with a declared media type different from
application/json returns 415 with a descriptive message and creates no
row, regardless of whether the body is a valid account payload. -/
theorem post_wrong_media_type_415 (db : DB) (body? : Option Payload)
    (ct today : String) (h : ct ≠ "application/json") :
    create_accounts db ⟨some ct, body?⟩ today =
      (⟨415, .message "Content-Type must be application/json", none⟩, db) := by
  have hcc : check_content_type (some ct) "application/json" =
      some ⟨415, .message "Content-Type must be application/json", none⟩ := by
    simp only [check_content_type]
    rw [if_neg (fun hand : ct ≠ "" ∧ ct = "application/json" => h hand.2)]
    rfl
  simp [create_accounts, hcc]

/-- Witness for C6: a valid body posted as text/html is still rejected. -/
theorem post_wrong_media_type_415_witness :
    create_accounts ⟨[], 0⟩
        ⟨some "text/html",
          some ⟨none, some "John", some "john@example.com",
            some "1 Main St", none, some "2020-01-01"⟩⟩
        "2020-01-02" =
      (⟨415, .message "Content-Type must be application/json", none⟩,
        ⟨[], 0⟩) :=
  post_wrong_media_type_415 ⟨[], 0⟩
    (some ⟨none, some "John", some "john@example.com",
      some "1 Main St", none, some "2020-01-01"⟩)
    "text/html" "2020-01-02" (by decide)

/-- C7: POST /accounts with a JSON body missing a required field (name,
email, or address) returns 400 and leaves the store unchanged. -/
theorem post_missing_required_field_400 (db : DB) (p : Payload)
    (today : String)
    (h : p.name = none ∨ p.email = none ∨ p.address = none) :
    (create_accounts db ⟨some "application/json", some p⟩ today).1.status
        = 400 ∧
    (create_accounts db ⟨some "application/json", some p⟩ today).2 = db := by
  have hcc : check_content_type (some "application/json")
      "application/json" = none := by decide
  rcases h with h | h | h
  · simp [create_accounts, hcc, Account.deserialize, h]
  · cases hn : p.name with
    | none => simp [create_accounts, hcc, Account.deserialize, hn]
    | some n => simp [create_accounts, hcc, Account.deserialize, hn, h]
  · cases hn : p.name with
    | none => simp [create_accounts, hcc, Account.deserialize, hn]
    | some n =>
      cases he : p.email with
      | none => simp [create_accounts, hcc, Account.deserialize, hn, he]
      | some e => simp [create_accounts, hcc, Account.deserialize, hn, he, h]

/-- Witness for C7 at a body missing the name field. -/
theorem post_missing_required_field_400_witness :
    (create_accounts ⟨[], 0⟩
        ⟨some "application/json",
          some ⟨none, none, some "john@example.com", some "1 Main St",
            none, none⟩⟩ "2020-01-02").1.status = 400 ∧
    (create_accounts ⟨[], 0⟩
        ⟨some "application/json",
          some ⟨none, none, some "john@example.com", some "1 Main St",
            none, none⟩⟩ "2020-01-02").2 = ⟨[], 0⟩ :=
  post_missing_required_field_400 ⟨[], 0⟩
    ⟨none, none, some "john@example.com", some "1 Main St", none, none⟩
    "2020-01-02" (Or.inl rfl)

/-- C1: for every valid JSON payload with name, email, and address
present, POST /accounts returns 201 with the serialized created account
and a Location header, and a subsequent GET /accounts/<id> on the
returned id returns 200 with a record whose serialized form equals the
payload's fields plus an assigned id and date_joined. -/
theorem post_then_get_roundtrip (db : DB) (p : Payload)
    (n e ad today : String) (hwf : db.wf = true) (hn : p.name = some n)
    (he : p.email = some e) (ha : p.address = some ad) :
    (create_accounts db ⟨some "application/json", some p⟩ today).1 =
      ⟨201, .account ⟨some db.nextId, some n, some e, some ad,
        p.phone_number, some (p.date_joined.getD today)⟩, some "/"⟩ ∧
    read_account
        (create_accounts db ⟨some "application/json", some p⟩ today).2
        db.nextId =
      ⟨200, .account ⟨some db.nextId, some n, some e, some ad,
        p.phone_number, some (p.date_joined.getD today)⟩, none⟩ := by
  have hcc : check_content_type (some "application/json")
      "application/json" = none := by decide
  have hdes : Account.new.deserialize p today =
      .ok ⟨none, n, e, ad, p.phone_number, p.date_joined.getD today⟩ := by
    simp [Account.deserialize, Account.new, hn, he, ha]
  constructor
  · simp only [create_accounts, hcc, hdes]
    rfl
  · have hfind := find_created db
      ⟨none, n, e, ad, p.phone_number, p.date_joined.getD today⟩ hwf
    simp only [create_accounts, hcc, hdes, read_account, hfind]
    rfl

/-- Witness for C1 at the empty store and a fully-populated payload. -/
theorem post_then_get_roundtrip_witness :
    (create_accounts ⟨[], 0⟩
        ⟨some "application/json",
          some ⟨none, some "John", some "john@example.com",
            some "1 Main St", none, some "2020-01-01"⟩⟩
        "2020-01-02").1 =
      ⟨201, .account ⟨some 0, some "John", some "john@example.com",
        some "1 Main St", none, some "2020-01-01"⟩, some "/"⟩ ∧
    read_account
        (create_accounts ⟨[], 0⟩
          ⟨some "application/json",
            some ⟨none, some "John", some "john@example.com",
              some "1 Main St", none, some "2020-01-01"⟩⟩
          "2020-01-02").2 0 =
      ⟨200, .account ⟨some 0, some "John", some "john@example.com",
        some "1 Main St", none, some "2020-01-01"⟩, none⟩ :=
  post_then_get_roundtrip ⟨[], 0⟩
    ⟨none, some "John", some "john@example.com", some "1 Main St",
      none, some "2020-01-01"⟩
    "John" "john@example.com" "1 Main St" "2020-01-02"
    (by decide) rfl rfl rfl

/-- C4: for every existing id and valid payload, PUT /accounts/<id>
overwrites all of the row's fields with the payload's values while the
row's id stays unchanged, and returns 200 with the serialized updated
account. -/
theorem put_existing_overwrites (db : DB) (i : Nat) (p : Payload)
    (ct? : Option String) (found : Account) (n e ad d today : String)
    (hf : db.find i = some found) (hn : p.name = some n)
    (he : p.email = some e) (ha : p.address = some ad)
    (hd : p.date_joined = some d) :
    found.id = some i ∧
    update_account db i ⟨ct?, some p⟩ today =
      (⟨200, .account (Account.serialize
          ⟨found.id, n, e, ad, p.phone_number, d⟩), none⟩,
        db.update ⟨found.id, n, e, ad, p.phone_number, d⟩) := by
  refine ⟨id_of_find db i found hf, ?_⟩
  have hdes : found.deserialize p today =
      .ok ⟨found.id, n, e, ad, p.phone_number, d⟩ := by
    simp [Account.deserialize, hn, he, ha, hd]
  have hfind2 : (db.update ⟨found.id, n, e, ad, p.phone_number, d⟩).find i =
      some ⟨found.id, n, e, ad, p.phone_number, d⟩ := by
    unfold DB.update DB.find
    exact find?_map_update db.rows i _ found hf rfl
  simp only [update_account, hf, hdes, hfind2]

/-- Witness for C4 at a one-row store. -/
theorem put_existing_overwrites_witness :
    (⟨some 1, "Ann", "ann@example.com", "2 Oak Ave", none,
        "2019-05-05"⟩ : Account).id = some 1 ∧
    update_account
        ⟨[⟨some 1, "Ann", "ann@example.com", "2 Oak Ave", none,
          "2019-05-05"⟩], 2⟩ 1
        ⟨some "application/json",
          some ⟨none, some "Bob", some "bob@example.com", some "3 Elm St",
            some "555-1234", some "2020-06-06"⟩⟩
        "2020-06-07" =
      (⟨200, .account (Account.serialize ⟨some 1, "Bob",
          "bob@example.com", "3 Elm St", some "555-1234",
          "2020-06-06"⟩), none⟩,
        DB.update
          ⟨[⟨some 1, "Ann", "ann@example.com", "2 Oak Ave", none,
            "2019-05-05"⟩], 2⟩
          ⟨some 1, "Bob", "bob@example.com", "3 Elm St", some "555-1234",
            "2020-06-06"⟩) :=
  put_existing_overwrites
    ⟨[⟨some 1, "Ann", "ann@example.com", "2 Oak Ave", none,
      "2019-05-05"⟩], 2⟩ 1
    ⟨none, some "Bob", some "bob@example.com", some "3 Elm St",
      some "555-1234", some "2020-06-06"⟩
    (some "application/json")
    ⟨some 1, "Ann", "ann@example.com", "2 Oak Ave", none, "2019-05-05"⟩
    "Bob" "bob@example.com" "3 Elm St" "2020-06-06" "2020-06-07"
    (by decide) rfl rfl rfl rfl
